import Mathlib

/-!
Verification of the session/account controller in src/src/App.tsx.

The component keeps two pieces of local state, `account : string | null`
and `loading : boolean`, and exposes three async handlers: `connectWallet`,
`logout` and (inside a mount effect) `checkLoginStatus`.  We embed each
handler as a pure Lean function from a mock SDK environment (the resolved
values of the awaited SDK calls) and a pre-state to a post-state together
with an event trace recording SDK calls, console logging and state
mutations.  The environment models runs in which each awaited call
resolves; the two fallible user actions (`connectWithUI`, `logout`) carry
an `Except` so that rejected promises are representable.  The `isMounted`
liveness flag of the mount effect is modelled by the values the flag has
at the moments the code reads it; handlers whose source never reads the
flag take a `mounted` argument that their bodies ignore, mirroring the
absence of a guard in the source.
-/

namespace MagicApp

/-- A JavaScript value that the `account` state variable can hold: `null`
(its initial value and the logout value), `undefined` (the result of
indexing an empty array), or a string. -/
inductive JSValue where
  | null
  | undef
  | str (s : String)
deriving DecidableEq, Repr

/-- JavaScript truthiness of an `account` value: `null` and `undefined` are
falsy, a string is truthy unless it is empty. -/
def truthy : JSValue → Bool
  | JSValue.null => false
  | JSValue.undef => false
  | JSValue.str s => !(s == "")

/-- The Magic SDK client constructed at module top level:
`new Magic(key, { useStorageCache: true })`. -/
structure MagicClient where
  apiKey : String
  useStorageCache : Bool
deriving DecidableEq, Repr

/-- The ethers `BrowserProvider` constructed at module top level from
`magic.rpcProvider`. -/
structure EthersProvider where
  transport : MagicClient
deriving DecidableEq, Repr

/-- The two process-wide singletons the module top level constructs. -/
structure AppClients where
  magic : MagicClient
  provider : EthersProvider
deriving DecidableEq, Repr

/-- Module top level of App.tsx: `if (!process.env.REACT_APP_MAGIC_API_KEY)
throw new Error("REACT_APP_MAGIC_API_KEY is required.")`, then the two
client constructions.  The environment variable is either absent
(`none`, JavaScript `undefined`) or a string; `!value` is true for the
absent value and for the empty string, so both abort before either client
is constructed. -/
def moduleInit (apiKeyEnv : Option String) : Except String AppClients :=
  match apiKeyEnv with
  | none => Except.error "REACT_APP_MAGIC_API_KEY is required."
  | some k =>
    if k == "" then Except.error "REACT_APP_MAGIC_API_KEY is required."
    else
      let magic : MagicClient := { apiKey := k, useStorageCache := true }
      Except.ok { magic := magic, provider := { transport := magic } }

/-- The component state: `useState<string | null>(null)` for the account and
`useState(true)` for the loading flag. -/
structure AppState where
  account : JSValue
  loading : Bool
deriving DecidableEq, Repr

/-- The state at component mount: `account = null`, `loading = true`. -/
def initialState : AppState := { account := JSValue.null, loading := true }

/-- The record returned by `magic.user.getInfo()` (the part the code reads). -/
structure UserInfo where
  publicAddress : String
deriving DecidableEq, Repr

/-- The signer returned by `provider.getSigner()` (the part the code reads). -/
structure Signer where
  address : String
deriving DecidableEq, Repr

instance {e a : Type} [DecidableEq e] [DecidableEq a] :
    DecidableEq (Except e a) := fun x y =>
  match x, y with
  | Except.ok u, Except.ok v =>
    if h : u = v then isTrue (by simp [h]) else isFalse (by simp [h])
  | Except.error u, Except.error v =>
    if h : u = v then isTrue (by simp [h]) else isFalse (by simp [h])
  | Except.ok _, Except.error _ => isFalse (by simp)
  | Except.error _, Except.ok _ => isFalse (by simp)

/-- Resolved values of the awaited SDK calls in one run: the session query,
the user record, the signer, and the outcomes of the two fallible calls
(`connectWithUI` and `logout`, whose promises may reject with an error). -/
structure MagicEnv where
  isLoggedIn : Bool
  userInfo : UserInfo
  signer : Signer
  connectResult : Except String (List String)
  logoutResult : Except String Unit
deriving DecidableEq, Repr

/-- Observable events of a handler run: SDK calls, callback registration,
`console.error` logging (message plus the logged error), and the two state
mutations. -/
inductive Event where
  | callIsLoggedIn
  | callGetInfo
  | callGetSigner
  | callConnectWithUI
  | callLogout
  | registerOnUserLoggedOut
  | consoleError (msg : String) (err : String)
  | setAccount (v : JSValue)
  | setLoading (b : Bool)
deriving DecidableEq, Repr

/-- Whether an event is a state mutation (a `setAccount` or `setLoading`). -/
def isMutation : Event → Bool
  | Event.setAccount _ => true
  | Event.setLoading _ => true
  | _ => false

/-- Whether a trace contains any state mutation. -/
def mutates (evs : List Event) : Bool := evs.any isMutation

/-- The `connectWallet` handler: awaits `magic.wallet.connectWithUI()` and on
success runs `setAccount(accounts[0])` — indexing an empty array yields
`undefined`; on rejection it logs `console.error("Connection failed", error)`.
The `mounted` argument is the liveness of the component when the
continuation runs; the source never reads any mount flag here, so the body
ignores it. -/
def connectWallet (env : MagicEnv) (_mounted : Bool) (s : AppState) :
    AppState × List Event :=
  match env.connectResult with
  | Except.ok accounts =>
    let v : JSValue :=
      match accounts with
      | [] => JSValue.undef
      | a :: _ => JSValue.str a
    ({ s with account := v }, [Event.callConnectWithUI, Event.setAccount v])
  | Except.error err =>
    (s, [Event.callConnectWithUI, Event.consoleError "Connection failed" err])

/-- The callback `logout` registers via `magic.user.onUserLoggedOut`: when
fired with `isLoggedOut = true` it runs `setAccount(null)`.  The `mounted`
argument is the liveness when the SDK fires the callback; the source does
not guard this mutation, so the body ignores it. -/
def onUserLoggedOutCallback (isLoggedOut : Bool) (_mounted : Bool)
    (s : AppState) : AppState × List Event :=
  if isLoggedOut then
    ({ s with account := JSValue.null }, [Event.setAccount JSValue.null])
  else
    (s, [])

/-- The `logout` handler: registers the `onUserLoggedOut` callback, then
awaits `magic.user.logout()`; a rejection is caught and logged as
`console.error("Logout failed", error)`.  The handler body itself performs
no state mutation (state only changes if the registered callback later
fires).  The `mounted` argument is ignored as in the source. -/
def logout (env : MagicEnv) (_mounted : Bool) (s : AppState) :
    AppState × List Event :=
  match env.logoutResult with
  | Except.ok _ =>
    (s, [Event.registerOnUserLoggedOut, Event.callLogout])
  | Except.error err =>
    (s, [Event.registerOnUserLoggedOut, Event.callLogout,
         Event.consoleError "Logout failed" err])

/-- The values the mount effect's mutable `isMounted` flag has at the two
points `checkLoginStatus` reads it: before `setAccount` in the match branch
and before `setLoading(false)` in the `finally` block.  The flag starts
true and the cleanup sets it false, so it only ever goes from true to
false. -/
structure MountReads where
  atAccountUpdate : Bool
  atFinally : Bool
deriving DecidableEq, Repr

/-- The `checkLoginStatus` function of the mount effect: awaits
`magic.user.isLoggedIn()`; if logged in, awaits `magic.user.getInfo()` and
`provider.getSigner()`, throws when `user.publicAddress !== signer.address`
(caught and logged as `console.error("Failed to check login status",
error)`), and otherwise runs `setAccount(user.publicAddress)` under an
`if (isMounted)` guard; the `finally` block runs `setLoading(false)` under
its own `if (isMounted)` guard. -/
def checkLoginStatus (env : MagicEnv) (m : MountReads) (s : AppState) :
    AppState × List Event :=
  let tried : AppState × List Event :=
    if env.isLoggedIn then
      let user := env.userInfo
      let signer := env.signer
      if user.publicAddress != signer.address then
        (s, [Event.callIsLoggedIn, Event.callGetInfo, Event.callGetSigner,
             Event.consoleError "Failed to check login status"
               "User address does not match signer address"])
      else if m.atAccountUpdate then
        ({ s with account := JSValue.str user.publicAddress },
         [Event.callIsLoggedIn, Event.callGetInfo, Event.callGetSigner,
          Event.setAccount (JSValue.str user.publicAddress)])
      else
        (s, [Event.callIsLoggedIn, Event.callGetInfo, Event.callGetSigner])
    else
      (s, [Event.callIsLoggedIn])
  if m.atFinally then
    ({ tried.1 with loading := false }, tried.2 ++ [Event.setLoading false])
  else
    tried

/-- The main-content area of the render: the `loading ? ... : account ? ...
: ...` chain. -/
inductive MainView where
  | loadingIndicator
  | connectedAddress (v : JSValue)
  | connectButton
deriving DecidableEq, Repr

/-- The rendered output: the header's Disconnect button, shown by
`{account && <button onClick=logout>}` — visible exactly when `account` is
truthy — and the main-content view. -/
structure Rendered where
  disconnectButton : Bool
  mainView : MainView
deriving DecidableEq, Repr

/-- The render function of the component. -/
def render (s : AppState) : Rendered :=
  { disconnectButton := truthy s.account
    mainView :=
      if s.loading then MainView.loadingIndicator
      else if truthy s.account then MainView.connectedAddress s.account
      else MainView.connectButton }

/-- A Disconnect action is visible in the rendered output. -/
def showsDisconnect (r : Rendered) : Bool := r.disconnectButton

/-- A Connect action is visible in the rendered output. -/
def showsConnect (r : Rendered) : Bool := r.mainView == MainView.connectButton

/-- A loading indicator is visible in the rendered output. -/
def showsLoading (r : Rendered) : Bool :=
  r.mainView == MainView.loadingIndicator

/-- The Loading state of the spec's state machine. -/
def isLoadingState (s : AppState) : Bool := s.loading

/-- The Connected state of the spec's state machine. -/
def isConnectedState (s : AppState) : Bool := !s.loading && truthy s.account

/-- The Disconnected state of the spec's state machine. -/
def isDisconnectedState (s : AppState) : Bool :=
  !s.loading && !truthy s.account

/-- Mount-flag reads of a run during which the component stays mounted:
both guards see true. -/
def mountedReads : MountReads :=
  { atAccountUpdate := true, atFinally := true }

/-- Mount-flag reads of a run whose component was torn down before the
awaited calls resolved: both guards see false. -/
def unmountedReads : MountReads :=
  { atAccountUpdate := false, atFinally := false }

/-! Concrete environments used by witnesses and counterexamples. -/

/-- Environment with a session whose claimed address differs from the
signer address only in case. -/
def envCaseMismatch : MagicEnv :=
  { isLoggedIn := true
    userInfo := { publicAddress := "0xAb" }
    signer := { address := "0xab" }
    connectResult := Except.error "unused"
    logoutResult := Except.ok () }

/-- Environment with a session whose claimed address equals the signer
address exactly; connect resolves with one address. -/
def envMatch : MagicEnv :=
  { isLoggedIn := true
    userInfo := { publicAddress := "0xab" }
    signer := { address := "0xab" }
    connectResult := Except.ok ["0xab"]
    logoutResult := Except.ok () }

/-- Environment with no existing session; connect resolves with an empty
address list and the logout call rejects. -/
def envNoSession : MagicEnv :=
  { isLoggedIn := false
    userInfo := { publicAddress := "0xab" }
    signer := { address := "0xab" }
    connectResult := Except.ok []
    logoutResult := Except.error "network" }

/-- Environment whose connect flow rejects (user closed the modal). -/
def envConnectErr : MagicEnv :=
  { isLoggedIn := false
    userInfo := { publicAddress := "0xab" }
    signer := { address := "0xab" }
    connectResult := Except.error "user closed modal"
    logoutResult := Except.ok () }

/-- Shared helper: with both reads of the mount flag false (component torn
down before the awaited calls resolved), the session check leaves the state
unchanged and its trace holds no mutation. -/
theorem checkLoginStatus_unmounted_frame (env : MagicEnv) (s : AppState) :
    (checkLoginStatus env unmountedReads
        s).1 = s ∧
    mutates (checkLoginStatus env unmountedReads s).2 = false := by
  unfold checkLoginStatus
  cases hb : env.isLoggedIn <;>
    simp [unmountedReads, mutates, isMutation] <;>
    split <;>
    simp [unmountedReads, mutates, isMutation]

/-- C1: in every run of the session check in which a session exists and the
claimed address differs from the signer address (the comparison is exact
string equality, so case-only differences count as different), the
authentication-inconsistency error is caught and logged, and the final
state is `loading = false`, `account = null`. -/
theorem checkSession_mismatch_logs_and_clears (env : MagicEnv)
    (hs : env.isLoggedIn = true)
    (hne : env.userInfo.publicAddress ≠ env.signer.address) :
    (checkLoginStatus env mountedReads
        initialState).1 = { account := JSValue.null, loading := false } ∧
    (checkLoginStatus env mountedReads
        initialState).2 =
      [Event.callIsLoggedIn, Event.callGetInfo, Event.callGetSigner,
       Event.consoleError "Failed to check login status"
         "User address does not match signer address",
       Event.setLoading false] := by
  unfold checkLoginStatus
  simp [hs, bne_iff_ne, hne, initialState, mountedReads]

/-- Witness for the mismatch theorem at a case-only address difference. -/
theorem checkSession_mismatch_logs_and_clears_witness :
    (checkLoginStatus envCaseMismatch mountedReads initialState).1 =
      { account := JSValue.null, loading := false } ∧
    (checkLoginStatus envCaseMismatch mountedReads initialState).2 =
      [Event.callIsLoggedIn, Event.callGetInfo, Event.callGetSigner,
       Event.consoleError "Failed to check login status"
         "User address does not match signer address",
       Event.setLoading false] :=
  checkSession_mismatch_logs_and_clears envCaseMismatch rfl (by decide)

/-- C2: in every run of the session check in which a session exists and the
claimed address equals the signer address exactly, the final state is
`loading = false` with `account` set to the validated address. -/
theorem checkSession_match_sets_account (env : MagicEnv)
    (hs : env.isLoggedIn = true)
    (heq : env.userInfo.publicAddress = env.signer.address) :
    (checkLoginStatus env mountedReads
        initialState).1 =
      { account := JSValue.str env.userInfo.publicAddress,
        loading := false } := by
  unfold checkLoginStatus
  simp [hs, heq, initialState, mountedReads]

/-- Witness for the matching-address theorem. -/
theorem checkSession_match_sets_account_witness :
    (checkLoginStatus envMatch mountedReads
        initialState).1 =
      { account := JSValue.str envMatch.userInfo.publicAddress,
        loading := false } :=
  checkSession_match_sets_account envMatch rfl rfl

/-- C3: in every run of the session check in which no session exists, the
final state is `loading = false`, `account = null`, and the trace holds
only the session-existence query and the final `setLoading` — in
particular no user-info and no signer call. -/
theorem checkSession_noSession_only_session_query (env : MagicEnv)
    (hs : env.isLoggedIn = false) :
    (checkLoginStatus env mountedReads
        initialState).1 = { account := JSValue.null, loading := false } ∧
    (checkLoginStatus env mountedReads
        initialState).2 = [Event.callIsLoggedIn, Event.setLoading false] ∧
    List.contains (checkLoginStatus env mountedReads initialState).2 Event.callGetInfo = false ∧
    List.contains (checkLoginStatus env mountedReads initialState).2 Event.callGetSigner = false := by
  unfold checkLoginStatus
  simp [hs, initialState, List.contains, mountedReads]

/-- Witness for the no-session theorem. -/
theorem checkSession_noSession_only_session_query_witness :
    (checkLoginStatus envNoSession mountedReads initialState).1 =
      { account := JSValue.null, loading := false } ∧
    (checkLoginStatus envNoSession mountedReads initialState).2 =
      [Event.callIsLoggedIn, Event.setLoading false] ∧
    List.contains (checkLoginStatus envNoSession mountedReads initialState).2 Event.callGetInfo = false ∧
    List.contains (checkLoginStatus envNoSession mountedReads initialState).2 Event.callGetSigner = false :=
  checkSession_noSession_only_session_query envNoSession rfl

/-- The C4 claim as stated: every async flow — the session check, connect,
logout and the logout callback — guards each of its state mutations with
the liveness flag, so a flow resuming after teardown mutates nothing. -/
def claimEveryFlowGuarded : Prop :=
  (∀ env s, mutates (checkLoginStatus env unmountedReads s).2 = false) ∧
  (∀ env s, mutates (connectWallet env false s).2 = false) ∧
  (∀ env s, mutates (logout env false s).2 = false) ∧
  (∀ b s, mutates (onUserLoggedOutCallback b false s).2 = false)

/-- C4 counterexample: a connect flow resolving with an address after
teardown still mutates `account` — the source has no mount-flag guard in
`connectWallet`. -/
theorem connect_unguarded_after_teardown : ¬ claimEveryFlowGuarded := by
  intro h
  unfold claimEveryFlowGuarded at h
  exact absurd (h.2.1 envMatch initialState) (by decide)

/-- C4 amended: the session check guards each of its mutations with the
mount flag, but `connectWallet`, `logout` and the logout callback never
read the flag — their behaviour after teardown is identical to their
behaviour while mounted, so a stale connect flow or logout callback still
mutates state. -/
theorem mount_guard_only_in_checkSession :
    (∀ env s, mutates (checkLoginStatus env unmountedReads s).2 = false) ∧
    (∀ env m s, connectWallet env m s = connectWallet env true s) ∧
    (∀ env m s, logout env m s = logout env true s) ∧
    (∀ b m s, onUserLoggedOutCallback b m s =
      onUserLoggedOutCallback b true s) :=
  ⟨fun env s => (checkLoginStatus_unmounted_frame env s).2,
   fun _ _ _ => rfl, fun _ _ _ => rfl, fun _ _ _ => rfl⟩

/-- C5: if the component unmounts before the session check's pending calls
resolve, both reads of the mount flag yield false, and the run performs no
state mutation — neither `setAccount` nor `setLoading` — and leaves the
state unchanged. -/
theorem checkSession_teardown_no_mutation (env : MagicEnv) (s : AppState) :
    mutates (checkLoginStatus env unmountedReads s).2 = false ∧
    (checkLoginStatus env unmountedReads
        s).1 = s :=
  ⟨(checkLoginStatus_unmounted_frame env s).2,
   (checkLoginStatus_unmounted_frame env s).1⟩

/-- C6: logout registers the `onUserLoggedOut` callback before invoking the
SDK logout call; the callback sets `account = null` when fired with true;
and when the logout call rejects, the error is logged and the state is
unchanged. -/
theorem logout_registers_callback_then_calls (envAny env : MagicEnv)
    (m : Bool) (s : AppState) (err : String)
    (hf : env.logoutResult = Except.error err) :
    (logout envAny m s).2.take 2 =
      [Event.registerOnUserLoggedOut, Event.callLogout] ∧
    (onUserLoggedOutCallback true m s).1 =
      { s with account := JSValue.null } ∧
    (logout env m s).1 = s ∧
    (logout env m s).2 =
      [Event.registerOnUserLoggedOut, Event.callLogout,
       Event.consoleError "Logout failed" err] := by
  refine ⟨?_, rfl, ?_, ?_⟩
  · unfold logout; cases envAny.logoutResult <;> simp
  · simp [logout, hf]
  · simp [logout, hf]

/-- Witness for the logout theorem: a run whose logout call rejects. -/
theorem logout_registers_callback_then_calls_witness :
    (logout envMatch true initialState).2.take 2 =
      [Event.registerOnUserLoggedOut, Event.callLogout] ∧
    (onUserLoggedOutCallback true true initialState).1 =
      { initialState with account := JSValue.null } ∧
    (logout envNoSession true initialState).1 = initialState ∧
    (logout envNoSession true initialState).2 =
      [Event.registerOnUserLoggedOut, Event.callLogout,
       Event.consoleError "Logout failed" "network"] :=
  logout_registers_callback_then_calls envMatch envNoSession true
    initialState "network" rfl

/-- C7: connect sets `account` to the first address of the returned list on
success (loading untouched); on rejection it logs the error and leaves the
whole state — and hence the rendered output — unchanged. -/
theorem connect_success_first_failure_unchanged
    (envOk envErr : MagicEnv) (m : Bool) (s : AppState)
    (a : String) (rest : List String) (err : String)
    (hok : envOk.connectResult = Except.ok (a :: rest))
    (herr : envErr.connectResult = Except.error err) :
    (connectWallet envOk m s).1.account = JSValue.str a ∧
    (connectWallet envOk m s).1.loading = s.loading ∧
    (connectWallet envErr m s).1 = s ∧
    (connectWallet envErr m s).2 =
      [Event.callConnectWithUI,
       Event.consoleError "Connection failed" err] ∧
    render (connectWallet envErr m s).1 = render s := by
  simp [connectWallet, hok, herr]

/-- Witness for the connect theorem: a one-address success and a rejected
connect flow. -/
theorem connect_success_first_failure_unchanged_witness :
    (connectWallet envMatch true initialState).1.account =
      JSValue.str "0xab" ∧
    (connectWallet envMatch true initialState).1.loading =
      initialState.loading ∧
    (connectWallet envConnectErr true initialState).1 = initialState ∧
    (connectWallet envConnectErr true initialState).2 =
      [Event.callConnectWithUI,
       Event.consoleError "Connection failed" "user closed modal"] ∧
    render (connectWallet envConnectErr true initialState).1 =
      render initialState :=
  connect_success_first_failure_unchanged envMatch envConnectErr true
    initialState "0xab" [] "user closed modal" rfl rfl

/-- C8: with the API-key secret absent, the module top level fails with the
descriptive error before either client is constructed and before any UI
can render. -/
theorem moduleInit_missing_key_fatal :
    moduleInit none = Except.error "REACT_APP_MAGIC_API_KEY is required." :=
  rfl

/-- The C9 claim as stated: for every state, the Disconnect action is
visible exactly in the Connected state, the Connect action exactly in the
Disconnected state, and the loading indicator exactly in the Loading
state. -/
def claimRenderMutuallyExclusive : Prop :=
  ∀ s : AppState,
    (showsDisconnect (render s) = true ↔ isConnectedState s = true) ∧
    (showsConnect (render s) = true ↔ isDisconnectedState s = true) ∧
    (showsLoading (render s) = true ↔ isLoadingState s = true)

/-- C9 counterexample: in the state `loading = true`, `account = "0xab"`,
the header renders the Disconnect button although the state is Loading,
not Connected — the header guard reads only `account`. -/
theorem disconnect_visible_while_loading : ¬ claimRenderMutuallyExclusive := by
  intro h
  unfold claimRenderMutuallyExclusive at h
  exact absurd ((h { account := JSValue.str "0xab", loading := true }).1.mp
    (by decide)) (by decide)

/-- C9 amended: the Connect action is visible exactly in the Disconnected
state and the loading indicator exactly in the Loading state, but the
Disconnect action is visible whenever `account` is truthy — exactly in the
Connected state or in the Loading state with a truthy account. -/
theorem render_views_amended (s : AppState) :
    showsConnect (render s) = isDisconnectedState s ∧
    showsLoading (render s) = isLoadingState s ∧
    showsDisconnect (render s) =
      (isConnectedState s || (isLoadingState s && truthy s.account)) := by
  obtain ⟨account, loading⟩ := s
  cases loading <;> cases h : truthy account <;>
    simp [render, showsConnect, showsLoading, showsDisconnect,
      isDisconnectedState, isLoadingState, isConnectedState, h]

/-- C10: when the connect flow resolves with an empty address list, the
handler stores the absent value (`accounts[0]` is `undefined`) with no
non-emptiness check, and since that value is falsy the UI keeps rendering
the Disconnected view. -/
theorem connect_empty_list_sets_undef (env : MagicEnv) (m : Bool)
    (s : AppState) (h : env.connectResult = Except.ok [])
    (hl : s.loading = false) :
    (connectWallet env m s).1.account = JSValue.undef ∧
    showsConnect (render (connectWallet env m s).1) = true ∧
    showsDisconnect (render (connectWallet env m s).1) = false := by
  simp [connectWallet, h, render, showsConnect, showsDisconnect, truthy, hl]

/-- Witness for the empty-address-list theorem. -/
theorem connect_empty_list_sets_undef_witness :
    (connectWallet envNoSession true
        { account := JSValue.null, loading := false }).1.account =
      JSValue.undef ∧
    showsConnect (render (connectWallet envNoSession true
        { account := JSValue.null, loading := false }).1) = true ∧
    showsDisconnect (render (connectWallet envNoSession true
        { account := JSValue.null, loading := false }).1) = false :=
  connect_empty_list_sets_undef envNoSession true
    { account := JSValue.null, loading := false } rfl rfl

end MagicApp
